import Mathlib

/-!
Shallow embedding of the multi-frame spatial cache and coordinate-transform
subsystem of NextPoints: the `World` frame-cache-entry lifecycle and `Images`
sub-loader (public/js/world.js), and the `Data` spatial cache manager
(public/js/data.js).  JavaScript numbers are modelled as `ℚ` (all the
operations used here are exact on the values the code manipulates), JS
booleans as `Bool`, and the asynchronous sub-loader completion callbacks as
an explicit event alphabet acting on an explicit state record.
-/

namespace NextPoints

/-- State of one Frame Cache Entry (`class World` in world.js) together with
the fields of its owned sub-objects that the lifecycle logic reads or writes.
`lidarPreloadedF`, `annoPreloadedF`, `egoPreloadedF` are the `preloaded`
flags of `this.lidar`, `this.annotation` and `this.egoPose`; `camLoaded`
is `Images.loaded_flag`, one `Bool` per entry of `Images.names`;
`attached` records whether `this.webglGroup` is currently added to
`this.scene`; `calcCount` counts invocations of `calcTransformMatrix` and
`notifyCount` invocations of the `on_preload_finished` callback;
`annoModified` is `this.annotation.modified`; `frameIndex` is
`this.frameInfo.frame_index` and `offsetIndex` is `this.offsetIndex`
assigned by `Data._createWorld`. -/
structure WorldState where
  lidarPreloadedF : Bool
  annoPreloadedF : Bool
  egoPreloadedF : Bool
  camLoaded : List Bool
  active : Bool
  everythingDone : Bool
  destroyed : Bool
  attached : Bool
  calcCount : Nat
  notifyCount : Nat
  annoModified : Bool
  frameIndex : Int
  offsetIndex : Int × Int × Int
  deriving DecidableEq, Repr

/-- A freshly constructed world (end of the `World` constructor, world.js
182-207): all sub-loader flags false, `active`, `everythingDone`,
`destroyed` false, nothing attached, no transform computed yet.
`cams` gives the initial `Images.loaded_flag` row (all `false` entries
until the corresponding image settles). -/
def mkWorld (cams : List Bool) : WorldState :=
  { lidarPreloadedF := false
    annoPreloadedF := false
    egoPreloadedF := false
    camLoaded := cams
    active := false
    everythingDone := false
    destroyed := false
    attached := false
    calcCount := 0
    notifyCount := 0
    annoModified := false
    frameIndex := 0
    offsetIndex := (0, 0, 0) }

/-- `World.preloaded()` (world.js 213-217): conjunction of the point-cloud,
annotation and pose sub-loader flags.  Note the source does not consult
`this.cameras`. -/
def preloadedW (s : WorldState) : Bool :=
  s.lidarPreloadedF && s.annoPreloadedF && s.egoPreloadedF

/-- `Images.loaded()` (world.js 142-144): `names.every(n => loaded_flag[n])`. -/
def imagesLoaded (s : WorldState) : Bool :=
  s.camLoaded.all id

/-- `World.unload()` (world.js 306-314). -/
def unloadW (s : WorldState) : WorldState :=
  if s.everythingDone then
    { s with attached := false, active := false, everythingDone := false }
  else s

/-- `World.go()` (world.js 283-304).  `destroy_old_world?.()` acts only on
the previously active entry, never on this record; its ordering relative to
the attachment is modelled separately for the manager (`goLog`). -/
def goW (s : WorldState) : WorldState :=
  if s.everythingDone then s
  else if preloadedW s then
    if s.destroyed then unloadW s
    else { s with attached := true, everythingDone := true }
  else s

/-- `World.on_subitem_preload_finished(callback)` (world.js 227-234): if the
aggregate predicate holds, run `calcTransformMatrix()`, fire the
`on_preload_finished` callback, and `go()` when active.  There is no
fired-before guard in the source. -/
def onSubPreloadFinished (s : WorldState) : WorldState :=
  if preloadedW s then
    let s1 := { s with calcCount := s.calcCount + 1, notifyCount := s.notifyCount + 1 }
    if s1.active then goW s1 else s1
  else s

/-- `World.deleteAll()` (world.js 316-323). -/
def deleteAllW (s : WorldState) : WorldState :=
  let s1 := if s.everythingDone then unloadW s else s
  if s1.destroyed then s1 else { s1 with destroyed := true }

/-- `World.activate(scene, destroy_old_world, on_finished)` (world.js
275-281), restricted to this record's fields. -/
def activateW (s : WorldState) : WorldState :=
  let s1 := { s with active := true }
  if preloadedW s1 then goW s1 else s1

/-- Settlement of camera image `i` (world.js 158-167 with 174-178): the
`loaded_flag` entry is set (on load and on error alike) and
`on_image_loaded` runs the aggregate check only once every image has
settled. -/
def imageSettle (s : WorldState) (i : Nat) : WorldState :=
  let s1 := { s with camLoaded := s.camLoaded.set i true }
  if imagesLoaded s1 then onSubPreloadFinished s1 else s1

/-- The completion events that can be delivered to one entry.  `lidarDone`,
`annoDone` and `egoDone` are the point-cloud, annotation and pose sub-loader
completions: each sets its `preloaded` flag and then invokes the shared
callback `() => this.on_subitem_preload_finished(callback)` installed by
`World.preload` (world.js 219-225).  The pose loader is `class EgoPose`
(ego_pose.js: set `preloaded = true`, then call `on_preload_finished`);
the point-cloud and annotation loaders follow the same completion protocol
per the spec's sub-loader contract.  `recheck` is a bare extra invocation
of the aggregate-completion check on an unchanged state. -/
inductive LoadEvent where
  | lidarDone
  | annoDone
  | egoDone
  | imageDone (i : Nat)
  | recheck
  | activateEv
  | deleteAllEv
  deriving DecidableEq, Repr

/-- One event acting on an entry's state. -/
def stepW (s : WorldState) : LoadEvent → WorldState
  | .lidarDone => onSubPreloadFinished { s with lidarPreloadedF := true }
  | .annoDone => onSubPreloadFinished { s with annoPreloadedF := true }
  | .egoDone => onSubPreloadFinished { s with egoPreloadedF := true }
  | .imageDone i => imageSettle s i
  | .recheck => onSubPreloadFinished s
  | .activateEv => activateW s
  | .deleteAllEv => deleteAllW s

/-- Delivering a sequence of events in order (one logical thread: callbacks
never overlap, they interleave). -/
def runW (s : WorldState) (evs : List LoadEvent) : WorldState :=
  evs.foldl stepW s

/-! ## The offset allocator (`Data.allocateOffset` / `Data.returnOffset`,
data.js 56-90). -/

/-- The allocator fields of `class Data`: `offsetList`, `lastSeedOffset`,
`offsetsAliveCount` (data.js 14-16). -/
structure AllocState where
  offsetList : List (Int × Int × Int)
  lastSeedOffset : Int × Int × Int
  offsetsAliveCount : Int
  deriving DecidableEq, Repr

/-- Initial allocator state (data.js 14-16). -/
def initAlloc : AllocState :=
  { offsetList := [(0, 0, 0)], lastSeedOffset := (0, 0, 0), offsetsAliveCount := 0 }

/-- `Data.allocateOffset` (data.js 56-85).  Returns the updated state and
the popped cell (`none` only if `offsetList.pop()` ran on an empty list,
which the reset/expansion paths prevent).  The JS guard
`!this.offsetList.includes(offset)` uses `Array.prototype.includes`, which
compares object references (SameValueZero); the arrays in `newOffsets` are
freshly constructed literals and so are never reference-equal to anything
already in `offsetList`, hence every one of the eight is pushed. -/
def allocateOffset (st : AllocState) : AllocState × Option (Int × Int × Int) :=
  let st :=
    if st.offsetsAliveCount = 0 then
      { st with offsetList := [(0, 0, 0)], lastSeedOffset := (0, 0, 0) }
    else st
  let st :=
    if st.offsetList = [] then
      let x := st.lastSeedOffset.1
      let y := st.lastSeedOffset.2.1
      let p := if x = y then (x + 1, (0 : Int)) else (x, y + 1)
      let x := p.1
      let y := p.2
      let newOffsets : List (Int × Int × Int) :=
        [(x, y, 0), (-x, y, 0), (x, -y, 0), (-x, -y, 0),
         (y, x, 0), (-y, x, 0), (y, -x, 0), (-y, -x, 0)]
      { st with lastSeedOffset := (x, y, 0), offsetList := st.offsetList ++ newOffsets }
    else st
  let st := { st with offsetsAliveCount := st.offsetsAliveCount + 1 }
  match st.offsetList.getLast? with
  | some off => ({ st with offsetList := st.offsetList.dropLast }, some off)
  | none => (st, none)

/-- `Data.returnOffset` (data.js 87-90). -/
def returnOffset (st : AllocState) (off : Int × Int × Int) : AllocState :=
  { st with offsetList := st.offsetList ++ [off],
            offsetsAliveCount := st.offsetsAliveCount - 1 }

/-! ## Eviction (`Data.deleteDistantWorlds`, data.js 119-135). -/

/-- The `removable` predicate of `deleteDistantWorlds` (data.js 122-126):
`Math.abs(frame_index - currentIndex) > MaxWorldNumber` and
`!annotation.modified && everythingDone`. -/
def removableW (maxWorldNumber : Int) (currentIndex : Int) (w : WorldState) : Bool :=
  (|w.frameIndex - currentIndex| > maxWorldNumber) && (!w.annoModified && w.everythingDone)

/-- `Data.deleteDistantWorlds(currentWorld)` (data.js 119-135).  The
JS code filters `worldList` with `removable`, calls
`returnOffset`/`deleteAll` on each selected (shared, mutable) world object,
and then reassigns `worldList` to `worldList.filter(w => !removable(w))` —
re-evaluating `removable` on the now-mutated objects.  Returns the new
world list together with the offsets handed back to the allocator. -/
def deleteDistantWorlds (maxWorldNumber : Int) (currentIndex : Int)
    (worldList : List WorldState) : List WorldState × List (Int × Int × Int) :=
  let toDelete := worldList.filter (removableW maxWorldNumber currentIndex)
  let mutated := worldList.map
    (fun w => if removableW maxWorldNumber currentIndex w then deleteAllW w else w)
  (mutated.filter (fun w => !(removableW maxWorldNumber currentIndex w)),
   toDelete.map (·.offsetIndex))

/-! ## Reference pose (`Data.getRefEgoPose`, data.js 148-150). -/

/-- A raw ego pose: translation and quaternion rotation, as read from
`pose.transform` in `calcTransformMatrix` (world.js 244-252). -/
structure Pose where
  tx : ℚ
  ty : ℚ
  tz : ℚ
  qx : ℚ
  qy : ℚ
  qz : ℚ
  qw : ℚ
  deriving DecidableEq, Repr

/-- `Data.getRefEgoPose(sceneName, currentPose)` (data.js 148-150):
`refEgoPose[sceneName] ?? (refEgoPose[sceneName] = currentPose)` — returns
the stored per-scene reference pose, or stores and returns the caller's
pose when none is set.  First component: the returned reference; second:
the store afterwards. -/
def getRefEgoPose (stored : Option Pose) (currentPose : Pose) : Pose × Option Pose :=
  match stored with
  | some r => (r, some r)
  | none => (currentPose, some currentPose)

/-! ## Activation ordering (`Data.activate_world`, data.js 256-262, and
`World.activate`/`World.go`, world.js 275-304), instrumented with a log of
render-space actions so the order of the old entry's detach and the new
entry's attach is observable. -/

/-- Observable render-space actions during activation, in program order. -/
inductive RenderAct where
  | oldUnload
  | attachNew
  | lidarGo
  | annoGo
  deriving DecidableEq, Repr

/-- `World.go()` (world.js 283-304) with a log.  `hasOld` says whether the
`destroy_old_world` closure installed by `Data.activate_world` will unload
a previous entry (i.e. `!dontDestroyOld && old` in data.js 260). -/
def goLog (s : WorldState) (hasOld : Bool) (log : List RenderAct) :
    WorldState × List RenderAct :=
  if s.everythingDone then (s, log)
  else if preloadedW s then
    let log := if hasOld then log ++ [RenderAct.oldUnload] else log
    if s.destroyed then (unloadW s, log)
    else ({ s with attached := true, everythingDone := true },
          log ++ [RenderAct.attachNew, RenderAct.lidarGo, RenderAct.annoGo])
  else (s, log)

/-- `Data.activate_world(world, onFinished, dontDestroyOld)` (data.js
256-262) followed by `World.activate` (world.js 275-281): the manager
swaps its pointer, the new world records the destroy-old closure and, if
already preloaded, runs `go()` at once.  The log starts empty. -/
def activateWorldLog (s : WorldState) (hasOld : Bool) :
    WorldState × List RenderAct :=
  let s1 := { s with active := true }
  if preloadedW s1 then goLog s1 hasOld [] else (s1, [])

/-! ## 4x4 homogeneous matrices (the THREE.Matrix4 operations used by
`World.calcTransformMatrix` and the point conversion helpers, world.js
236-273 and 339-349).  Entry `nij` is row `i`, column `j` (THREE stores
column-major but its `nij` naming is the same row/column convention). -/

structure Mat4 where
  n11 : ℚ
  n12 : ℚ
  n13 : ℚ
  n14 : ℚ
  n21 : ℚ
  n22 : ℚ
  n23 : ℚ
  n24 : ℚ
  n31 : ℚ
  n32 : ℚ
  n33 : ℚ
  n34 : ℚ
  n41 : ℚ
  n42 : ℚ
  n43 : ℚ
  n44 : ℚ
  deriving DecidableEq, Repr

/-- `new THREE.Matrix4()` / `.identity()`. -/
def idMat : Mat4 :=
  ⟨1, 0, 0, 0, 0, 1, 0, 0, 0, 0, 1, 0, 0, 0, 0, 1⟩

/-- The zero matrix, produced by `Matrix4.invert` on a singular matrix. -/
def zeroMat : Mat4 :=
  ⟨0, 0, 0, 0, 0, 0, 0, 0, 0, 0, 0, 0, 0, 0, 0, 0⟩

/-- `Matrix4.setPosition(x, y, z)`: overwrite the translation column. -/
def setPosition (m : Mat4) (x y z : ℚ) : Mat4 :=
  { m with n14 := x, n24 := y, n34 := z }

/-- `Matrix4.multiplyMatrices(a, b)`: the product `a * b`. -/
def mulMat (a b : Mat4) : Mat4 where
  n11 := a.n11 * b.n11 + a.n12 * b.n21 + a.n13 * b.n31 + a.n14 * b.n41
  n12 := a.n11 * b.n12 + a.n12 * b.n22 + a.n13 * b.n32 + a.n14 * b.n42
  n13 := a.n11 * b.n13 + a.n12 * b.n23 + a.n13 * b.n33 + a.n14 * b.n43
  n14 := a.n11 * b.n14 + a.n12 * b.n24 + a.n13 * b.n34 + a.n14 * b.n44
  n21 := a.n21 * b.n11 + a.n22 * b.n21 + a.n23 * b.n31 + a.n24 * b.n41
  n22 := a.n21 * b.n12 + a.n22 * b.n22 + a.n23 * b.n32 + a.n24 * b.n42
  n23 := a.n21 * b.n13 + a.n22 * b.n23 + a.n23 * b.n33 + a.n24 * b.n43
  n24 := a.n21 * b.n14 + a.n22 * b.n24 + a.n23 * b.n34 + a.n24 * b.n44
  n31 := a.n31 * b.n11 + a.n32 * b.n21 + a.n33 * b.n31 + a.n34 * b.n41
  n32 := a.n31 * b.n12 + a.n32 * b.n22 + a.n33 * b.n32 + a.n34 * b.n42
  n33 := a.n31 * b.n13 + a.n32 * b.n23 + a.n33 * b.n33 + a.n34 * b.n43
  n34 := a.n31 * b.n14 + a.n32 * b.n24 + a.n33 * b.n34 + a.n34 * b.n44
  n41 := a.n41 * b.n11 + a.n42 * b.n21 + a.n43 * b.n31 + a.n44 * b.n41
  n42 := a.n41 * b.n12 + a.n42 * b.n22 + a.n43 * b.n32 + a.n44 * b.n42
  n43 := a.n41 * b.n13 + a.n42 * b.n23 + a.n43 * b.n33 + a.n44 * b.n43
  n44 := a.n41 * b.n14 + a.n42 * b.n24 + a.n43 * b.n34 + a.n44 * b.n44

/-- `Matrix4.makeRotationFromQuaternion(q)` (THREE `compose` with zero
translation and unit scale): the standard quaternion-to-matrix formula. -/
def makeRotationFromQuaternion (x y z w : ℚ) : Mat4 :=
  let x2 := x + x
  let y2 := y + y
  let z2 := z + z
  let xx := x * x2
  let xy := x * y2
  let xz := x * z2
  let yy := y * y2
  let yz := y * z2
  let zz := z * z2
  let wx := w * x2
  let wy := w * y2
  let wz := w * z2
  ⟨1 - (yy + zz), xy - wz, xz + wy, 0,
   xy + wz, 1 - (xx + zz), yz - wx, 0,
   xz - wy, yz + wx, 1 - (xx + yy), 0,
   0, 0, 0, 1⟩

/-- Determinant of a 3x3 matrix given row by row, used for the cofactors of
`Matrix4.invert`. -/
def det3 (a b c d e f g h i : ℚ) : ℚ :=
  a * (e * i - f * h) - b * (d * i - f * g) + c * (d * h - e * g)

/-- Determinant of a `Mat4` (Laplace expansion along the first row;
extensionally the value computed inside `Matrix4.invert`). -/
def detM (m : Mat4) : ℚ :=
  m.n11 * det3 m.n22 m.n23 m.n24 m.n32 m.n33 m.n34 m.n42 m.n43 m.n44
  - m.n12 * det3 m.n21 m.n23 m.n24 m.n31 m.n33 m.n34 m.n41 m.n43 m.n44
  + m.n13 * det3 m.n21 m.n22 m.n24 m.n31 m.n32 m.n34 m.n41 m.n42 m.n44
  - m.n14 * det3 m.n21 m.n22 m.n23 m.n31 m.n32 m.n33 m.n41 m.n42 m.n43

/-- `Matrix4.invert()`: adjugate over determinant (entry `i j` of the
result is the `j i` cofactor divided by the determinant), with the zero
matrix when the determinant vanishes — exactly THREE's behaviour. -/
def invertM (m : Mat4) : Mat4 :=
  let d := detM m
  if d = 0 then zeroMat else
  { n11 := det3 m.n22 m.n23 m.n24 m.n32 m.n33 m.n34 m.n42 m.n43 m.n44 / d
    n12 := -det3 m.n12 m.n13 m.n14 m.n32 m.n33 m.n34 m.n42 m.n43 m.n44 / d
    n13 := det3 m.n12 m.n13 m.n14 m.n22 m.n23 m.n24 m.n42 m.n43 m.n44 / d
    n14 := -det3 m.n12 m.n13 m.n14 m.n22 m.n23 m.n24 m.n32 m.n33 m.n34 / d
    n21 := -det3 m.n21 m.n23 m.n24 m.n31 m.n33 m.n34 m.n41 m.n43 m.n44 / d
    n22 := det3 m.n11 m.n13 m.n14 m.n31 m.n33 m.n34 m.n41 m.n43 m.n44 / d
    n23 := -det3 m.n11 m.n13 m.n14 m.n21 m.n23 m.n24 m.n41 m.n43 m.n44 / d
    n24 := det3 m.n11 m.n13 m.n14 m.n21 m.n23 m.n24 m.n31 m.n33 m.n34 / d
    n31 := det3 m.n21 m.n22 m.n24 m.n31 m.n32 m.n34 m.n41 m.n42 m.n44 / d
    n32 := -det3 m.n11 m.n12 m.n14 m.n31 m.n32 m.n34 m.n41 m.n42 m.n44 / d
    n33 := det3 m.n11 m.n12 m.n14 m.n21 m.n22 m.n24 m.n41 m.n42 m.n44 / d
    n34 := -det3 m.n11 m.n12 m.n14 m.n21 m.n22 m.n24 m.n31 m.n32 m.n34 / d
    n41 := -det3 m.n21 m.n22 m.n23 m.n31 m.n32 m.n33 m.n41 m.n42 m.n43 / d
    n42 := det3 m.n11 m.n12 m.n13 m.n31 m.n32 m.n33 m.n41 m.n42 m.n43 / d
    n43 := -det3 m.n11 m.n12 m.n13 m.n21 m.n22 m.n23 m.n41 m.n42 m.n43 / d
    n44 := det3 m.n11 m.n12 m.n13 m.n21 m.n22 m.n23 m.n31 m.n32 m.n33 / d }

/-- `Vector4.applyMatrix4`: plain matrix-vector product, no divide. -/
def applyM4v4 (m : Mat4) (x y z w : ℚ) : ℚ × ℚ × ℚ × ℚ :=
  (m.n11 * x + m.n12 * y + m.n13 * z + m.n14 * w,
   m.n21 * x + m.n22 * y + m.n23 * z + m.n24 * w,
   m.n31 * x + m.n32 * y + m.n33 * z + m.n34 * w,
   m.n41 * x + m.n42 * y + m.n43 * z + m.n44 * w)

/-- `Vector3.applyMatrix4`: homogeneous product followed by the perspective
divide `w = 1 / (n41 x + n42 y + n43 z + n44)`.  For the affine matrices
built by `calcTransformMatrix` the divisor is 1.  (`ℚ` sets `1 / 0 = 0`
where JS would produce `Infinity`; no matrix in this development has a zero
divisor on the points considered.) -/
def applyM4v3 (m : Mat4) (x y z : ℚ) : ℚ × ℚ × ℚ :=
  let w := 1 / (m.n41 * x + m.n42 * y + m.n43 * z + m.n44)
  ((m.n11 * x + m.n12 * y + m.n13 * z + m.n14) * w,
   (m.n21 * x + m.n22 * y + m.n23 * z + m.n24) * w,
   (m.n31 * x + m.n32 * y + m.n33 * z + m.n34) * w)

/-! ## `World.calcTransformMatrix` (world.js 236-273). -/

/-- The four cached transforms computed by `calcTransformMatrix`. -/
structure TransformSet where
  trans_lidar_utm : Mat4
  trans_lidar_scene : Mat4
  trans_utm_lidar : Mat4
  trans_scene_lidar : Mat4
  deriving DecidableEq, Repr

/-- `World.calcTransformMatrix()` (world.js 236-273).  `utmMode` is
`this.data.cfg.coordinateSystem === "utm"`; `(ox, oy, oz)` is
`this.coordinatesOffset`; `poseAndRef` is `some (pose, refPose)` when
`this.egoPose.egoPose` is present (with `refPose` the value of
`this.data.getRefEgoPose(scene, pose)`), `none` otherwise. -/
def calcTransformMatrix (utmMode : Bool) (ox oy oz : ℚ) :
    Option (Pose × Pose) → TransformSet
  | some (pose, refPose) =>
    let offset := setPosition idMat ox oy oz
    let pdx := pose.tx - refPose.tx
    let pdy := pose.ty - refPose.ty
    let pdz := pose.tz - refPose.tz
    let rotation := makeRotationFromQuaternion pose.qx pose.qy pose.qz pose.qw
    let trans_lidar_ego := idMat
    let trans_ego_utm := setPosition rotation pdx pdy pdz
    let tlu := mulMat trans_ego_utm trans_lidar_ego
    let tls := if utmMode then mulMat offset tlu else offset
    { trans_lidar_utm := tlu
      trans_lidar_scene := tls
      trans_utm_lidar := invertM tlu
      trans_scene_lidar := invertM tls }
  | none =>
    let offset := setPosition idMat ox oy oz
    { trans_lidar_utm := idMat
      trans_lidar_scene := offset
      trans_utm_lidar := idMat
      trans_scene_lidar := invertM offset }

/-- `World.scenePosToLidar(pos)` (world.js 339-341): a `Vector4` with
`w = 1` through `trans_scene_lidar`. -/
def scenePosToLidar (t : TransformSet) (x y z : ℚ) : ℚ × ℚ × ℚ × ℚ :=
  applyM4v4 t.trans_scene_lidar x y z 1

/-- `World.lidarPosToScene(pos)` (world.js 343-345): a `Vector3` through
`trans_lidar_scene`. -/
def lidarPosToScene (t : TransformSet) (x y z : ℚ) : ℚ × ℚ × ℚ :=
  applyM4v3 t.trans_lidar_scene x y z

/-- `World.lidarPosToUtm(pos)` (world.js 347-349). -/
def lidarPosToUtm (t : TransformSet) (x y z : ℚ) : ℚ × ℚ × ℚ :=
  applyM4v3 t.trans_lidar_utm x y z

/-- The translation column of a transform. -/
def translationOf (m : Mat4) : ℚ × ℚ × ℚ :=
  (m.n14, m.n24, m.n34)

/-! ## Rotation conversion helpers (`World.toQuat` and the
`sceneRotToLidar` / `lidarRotToScene` / `lidarRotToUtm` / `utmRotToLidar`
family, world.js 351-424).  The transcendental functions of `Math` are
irrational on most inputs, so they are passed in as an explicit record of
functions `ℚ → ℚ`; every statement below holds for all of them, and none
of the dispatch, composition-order or Euler-order facts depends on their
values. -/

/-- The `Math` functions the rotation pipeline calls. -/
structure JsMath where
  sqrtF : ℚ → ℚ
  sinF : ℚ → ℚ
  cosF : ℚ → ℚ
  asinF : ℚ → ℚ
  atan2F : ℚ → ℚ → ℚ

/-- A THREE.Quaternion value. -/
structure Quat where
  x : ℚ
  y : ℚ
  z : ℚ
  w : ℚ
  deriving DecidableEq, Repr

/-- The six Euler rotation orders of THREE. -/
inductive EulOrder where
  | XYZ
  | YXZ
  | ZXY
  | ZYX
  | YZX
  | XZY
  deriving DecidableEq, Repr

/-- A THREE.Euler value. -/
structure EulerA where
  ex : ℚ
  ey : ℚ
  ez : ℚ
  order : EulOrder
  deriving DecidableEq, Repr

/-- `Quaternion.multiplyQuaternions(a, b)`; `a.multiply(b)` is
`multiplyQuaternions(a, b)`. -/
def mulQ (a b : Quat) : Quat where
  x := a.x * b.w + a.w * b.x + a.y * b.z - a.z * b.y
  y := a.y * b.w + a.w * b.y + a.z * b.x - a.x * b.z
  z := a.z * b.w + a.w * b.z + a.x * b.y - a.y * b.x
  w := a.w * b.w - a.x * b.x - a.y * b.y - a.z * b.z

/-- `Quaternion.normalize()`: divide by `sqrt(x² + y² + z² + w²)`,
with the identity quaternion when the length is zero. -/
def normalizeQ (jm : JsMath) (q : Quat) : Quat :=
  let l := jm.sqrtF (q.x * q.x + q.y * q.y + q.z * q.z + q.w * q.w)
  if l = 0 then ⟨0, 0, 0, 1⟩
  else ⟨q.x / l, q.y / l, q.z / l, q.w / l⟩

/-- `Quaternion.setFromEuler(euler)`: half-angle products with the
per-order sign pattern of THREE. -/
def setFromEulerQ (jm : JsMath) (x y z : ℚ) (order : EulOrder) : Quat :=
  let c1 := jm.cosF (x / 2)
  let c2 := jm.cosF (y / 2)
  let c3 := jm.cosF (z / 2)
  let s1 := jm.sinF (x / 2)
  let s2 := jm.sinF (y / 2)
  let s3 := jm.sinF (z / 2)
  match order with
  | .XYZ =>
    ⟨s1 * c2 * c3 + c1 * s2 * s3, c1 * s2 * c3 - s1 * c2 * s3,
     c1 * c2 * s3 + s1 * s2 * c3, c1 * c2 * c3 - s1 * s2 * s3⟩
  | .YXZ =>
    ⟨s1 * c2 * c3 + c1 * s2 * s3, c1 * s2 * c3 - s1 * c2 * s3,
     c1 * c2 * s3 - s1 * s2 * c3, c1 * c2 * c3 + s1 * s2 * s3⟩
  | .ZXY =>
    ⟨s1 * c2 * c3 - c1 * s2 * s3, c1 * s2 * c3 + s1 * c2 * s3,
     c1 * c2 * s3 + s1 * s2 * c3, c1 * c2 * c3 - s1 * s2 * s3⟩
  | .ZYX =>
    ⟨s1 * c2 * c3 - c1 * s2 * s3, c1 * s2 * c3 + s1 * c2 * s3,
     c1 * c2 * s3 - s1 * s2 * c3, c1 * c2 * c3 + s1 * s2 * s3⟩
  | .YZX =>
    ⟨s1 * c2 * c3 + c1 * s2 * s3, c1 * s2 * c3 + s1 * c2 * s3,
     c1 * c2 * s3 - s1 * s2 * c3, c1 * c2 * c3 - s1 * s2 * s3⟩
  | .XZY =>
    ⟨s1 * c2 * c3 - c1 * s2 * s3, c1 * s2 * c3 - s1 * c2 * s3,
     c1 * c2 * s3 + s1 * s2 * c3, c1 * c2 * c3 + s1 * s2 * s3⟩

/-- `Quaternion.setFromRotationMatrix(m)`: Shepperd's trace method with the
four THREE branches. -/
def setFromRotationMatrixQ (jm : JsMath) (m : Mat4) : Quat :=
  let trace := m.n11 + m.n22 + m.n33
  if 0 < trace then
    let s := (1 / 2) / jm.sqrtF (trace + 1)
    ⟨(m.n32 - m.n23) * s, (m.n13 - m.n31) * s, (m.n21 - m.n12) * s, (1 / 4) / s⟩
  else if m.n22 < m.n11 ∧ m.n33 < m.n11 then
    let s := 2 * jm.sqrtF (1 + m.n11 - m.n22 - m.n33)
    ⟨(1 / 4) * s, (m.n12 + m.n21) / s, (m.n13 + m.n31) / s, (m.n32 - m.n23) / s⟩
  else if m.n33 < m.n22 then
    let s := 2 * jm.sqrtF (1 + m.n22 - m.n11 - m.n33)
    ⟨(m.n12 + m.n21) / s, (1 / 4) * s, (m.n23 + m.n32) / s, (m.n13 - m.n31) / s⟩
  else
    let s := 2 * jm.sqrtF (1 + m.n33 - m.n11 - m.n22)
    ⟨(m.n13 + m.n31) / s, (m.n23 + m.n32) / s, (1 / 4) * s, (m.n21 - m.n12) / s⟩

/-- `MathUtils.clamp(value, min, max)`. -/
def clampQ (v lo hi : ℚ) : ℚ :=
  max lo (min hi v)

/-- `Euler.setFromRotationMatrix(m, order)`: per-order arcsine of one
entry with the gimbal-lock branch at `|entry| < 0.9999999`; the produced
Euler carries the requested `order`. -/
def eulerSetFromRotationMatrix (jm : JsMath) (m : Mat4) (order : EulOrder) : EulerA :=
  match order with
  | .XYZ =>
    let y := jm.asinF (clampQ m.n13 (-1) 1)
    if |m.n13| < 9999999 / 10000000 then
      ⟨jm.atan2F (-m.n23) m.n33, y, jm.atan2F (-m.n12) m.n11, order⟩
    else
      ⟨jm.atan2F m.n32 m.n22, y, 0, order⟩
  | .YXZ =>
    let x := jm.asinF (-(clampQ m.n23 (-1) 1))
    if |m.n23| < 9999999 / 10000000 then
      ⟨x, jm.atan2F m.n13 m.n33, jm.atan2F m.n21 m.n22, order⟩
    else
      ⟨x, jm.atan2F (-m.n31) m.n11, 0, order⟩
  | .ZXY =>
    let x := jm.asinF (clampQ m.n32 (-1) 1)
    if |m.n32| < 9999999 / 10000000 then
      ⟨x, jm.atan2F (-m.n31) m.n33, jm.atan2F (-m.n12) m.n22, order⟩
    else
      ⟨x, 0, jm.atan2F m.n21 m.n11, order⟩
  | .ZYX =>
    let y := jm.asinF (-(clampQ m.n31 (-1) 1))
    if |m.n31| < 9999999 / 10000000 then
      ⟨jm.atan2F m.n32 m.n33, y, jm.atan2F m.n21 m.n11, order⟩
    else
      ⟨0, y, jm.atan2F (-m.n12) m.n22, order⟩
  | .YZX =>
    let z := jm.asinF (clampQ m.n21 (-1) 1)
    if |m.n21| < 9999999 / 10000000 then
      ⟨jm.atan2F (-m.n23) m.n22, jm.atan2F (-m.n31) m.n11, z, order⟩
    else
      ⟨0, jm.atan2F m.n13 m.n33, z, order⟩
  | .XZY =>
    let z := jm.asinF (-(clampQ m.n12 (-1) 1))
    if |m.n12| < 9999999 / 10000000 then
      ⟨jm.atan2F m.n32 m.n22, jm.atan2F m.n13 m.n11, z, order⟩
    else
      ⟨jm.atan2F (-m.n23) m.n33, 0, z, order⟩

/-- `Euler.setFromQuaternion(q, order)`: build the rotation matrix of `q`
and extract the Euler angles from it. -/
def eulerSetFromQuaternion (jm : JsMath) (q : Quat) (order : EulOrder) : EulerA :=
  eulerSetFromRotationMatrix jm (makeRotationFromQuaternion q.x q.y q.z q.w) order

/-- The JavaScript value shapes that can reach `World.toQuat` (world.js
351-364): `null`/`undefined` (falsy), a THREE.Quaternion
(`isQuaternion`), a THREE.Euler (`isEuler`), a JS array, a plain object
whose `x`, `y`, `z`, `w` properties are present (`some`) or absent
(`none`), or any other value. -/
inductive RotInput where
  | nullIn
  | quatIn (q : Quat)
  | eulerIn (x y z : ℚ) (order : EulOrder)
  | arrIn (l : List ℚ)
  | objIn (x y z w : Option ℚ)
  | otherIn
  deriving DecidableEq, Repr

/-- `World.toQuat(rot)` (world.js 351-364): `null` gives the identity;
quaternions are cloned; Euler values are converted; a length-4 array is
read as `[w, x, y, z]`; a plain object with `x`, `y`, `z` properties is
read as `{x, y, z, w}` with defaults `0, 0, 0, 1`; everything else throws
`Unsupported rotation format`.  (An array whose length differs from 4
falls through to the `'x' in rot` test, which is false for arrays, and
throws.) -/
def toQuat (jm : JsMath) : RotInput → Except String Quat
  | .nullIn => .ok ⟨0, 0, 0, 1⟩
  | .quatIn q => .ok q
  | .eulerIn x y z order => .ok (setFromEulerQ jm x y z order)
  | .arrIn [w, x, y, z] => .ok ⟨x, y, z, w⟩
  | .arrIn _ => .error "Unsupported rotation format"
  | .objIn x y z w =>
    if x.isSome && y.isSome && z.isSome then
      .ok ⟨x.getD 0, y.getD 0, z.getD 0, w.getD 1⟩
    else .error "Unsupported rotation format"
  | .otherIn => .error "Unsupported rotation format"

/-- The four cached matrices as the rotation helpers see them: each may be
absent (`undefined`) before `calcTransformMatrix` has run, which the
helpers guard with `?.isMatrix4`. -/
structure WorldMatrices where
  trans_scene_lidar : Option Mat4
  trans_lidar_scene : Option Mat4
  trans_lidar_utm : Option Mat4
  trans_utm_lidar : Option Mat4

/-- The parent-frame quaternion a helper extracts: from the cached matrix
when present, the identity otherwise (the `?.isMatrix4` guard). -/
def qParentOf (jm : JsMath) : Option Mat4 → Quat
  | some m => setFromRotationMatrixQ jm m
  | none => ⟨0, 0, 0, 1⟩

/-- `World.sceneRotToLidarQuat(rot)` (world.js 367-373):
`toQuat(rot).multiply(qParent).normalize()`, local times parent. -/
def sceneRotToLidarQuat (jm : JsMath) (wm : WorldMatrices) (rot : RotInput) :
    Except String Quat :=
  (toQuat jm rot).map fun qLocal =>
    normalizeQ jm (mulQ qLocal (qParentOf jm wm.trans_scene_lidar))

/-- Euler order the wrapper passes on: the input's own order when the input
is an Euler, `"XYZ"` otherwise (world.js 376 etc.). -/
def orderOfInput : RotInput → EulOrder
  | .eulerIn _ _ _ o => o
  | _ => .XYZ

/-- `World.sceneRotToLidar(rotEulerOrQuat)` (world.js 375-379). -/
def sceneRotToLidar (jm : JsMath) (wm : WorldMatrices) (rot : RotInput) :
    Except String EulerA :=
  (sceneRotToLidarQuat jm wm rot).map fun q =>
    eulerSetFromQuaternion jm q (orderOfInput rot)

/-- `World.lidarRotToSceneQuat(rot)` (world.js 382-388). -/
def lidarRotToSceneQuat (jm : JsMath) (wm : WorldMatrices) (rot : RotInput) :
    Except String Quat :=
  (toQuat jm rot).map fun qLocal =>
    normalizeQ jm (mulQ qLocal (qParentOf jm wm.trans_lidar_scene))

/-- `World.lidarRotToScene(rotEulerOrQuat)` (world.js 390-394). -/
def lidarRotToScene (jm : JsMath) (wm : WorldMatrices) (rot : RotInput) :
    Except String EulerA :=
  (lidarRotToSceneQuat jm wm rot).map fun q =>
    eulerSetFromQuaternion jm q (orderOfInput rot)

/-- `World.lidarRotToUtmQuat(rot)` (world.js 397-403). -/
def lidarRotToUtmQuat (jm : JsMath) (wm : WorldMatrices) (rot : RotInput) :
    Except String Quat :=
  (toQuat jm rot).map fun qLocal =>
    normalizeQ jm (mulQ qLocal (qParentOf jm wm.trans_lidar_utm))

/-- `World.lidarRotToUtm(rotEulerOrQuat)` (world.js 405-409). -/
def lidarRotToUtm (jm : JsMath) (wm : WorldMatrices) (rot : RotInput) :
    Except String EulerA :=
  (lidarRotToUtmQuat jm wm rot).map fun q =>
    eulerSetFromQuaternion jm q (orderOfInput rot)

/-- `World.utmRotToLidarQuat(rot)` (world.js 412-418). -/
def utmRotToLidarQuat (jm : JsMath) (wm : WorldMatrices) (rot : RotInput) :
    Except String Quat :=
  (toQuat jm rot).map fun qLocal =>
    normalizeQ jm (mulQ qLocal (qParentOf jm wm.trans_utm_lidar))

/-- `World.utmRotToLidar(rotEulerOrQuat)` (world.js 420-424). -/
def utmRotToLidar (jm : JsMath) (wm : WorldMatrices) (rot : RotInput) :
    Except String EulerA :=
  (utmRotToLidarQuat jm wm rot).map fun q =>
    eulerSetFromQuaternion jm q (orderOfInput rot)

/-! ## Concrete instances used by the counterexamples and witnesses. -/

/-- A world whose three consulted sub-loaders have settled while its single
camera image has not. -/
def threeSettled : WorldState :=
  { mkWorld [false] with
      lidarPreloadedF := true, annoPreloadedF := true, egoPreloadedF := true }

/-- A fully preloaded world with no cameras, not yet activated. -/
def readyWorld : WorldState :=
  { mkWorld [] with
      lidarPreloadedF := true, annoPreloadedF := true, egoPreloadedF := true }

/-- Completion order for a one-camera world: point cloud, annotation and
pose first, the image last. -/
def imageLastTrace : List LoadEvent :=
  [LoadEvent.lidarDone, LoadEvent.annoDone, LoadEvent.egoDone, LoadEvent.imageDone 0]

/-- First, second and third allocation on a fresh allocator. -/
def alloc1 : AllocState × Option (Int × Int × Int) := allocateOffset initAlloc

/-- Second allocation. -/
def alloc2 : AllocState × Option (Int × Int × Int) := allocateOffset alloc1.1

/-- Third allocation. -/
def alloc3 : AllocState × Option (Int × Int × Int) := allocateOffset alloc2.1

/-- An everything-done, unmodified world 100 frames away from the current
one (the default window `MaxWorldNumber` is 80, data.js 18). -/
def farWorld : WorldState :=
  { mkWorld [] with
      lidarPreloadedF := true, annoPreloadedF := true, egoPreloadedF := true,
      frameIndex := 100, everythingDone := true, attached := true,
      active := true, offsetIndex := (1, 0, 0) }

/-- A `Math` record with every transcendental function constantly zero;
the dispatch and plumbing facts hold for every such record. -/
def jmZero : JsMath :=
  { sqrtF := fun _ => 0, sinF := fun _ => 0, cosF := fun _ => 0,
    asinF := fun _ => 0, atan2F := fun _ _ => 0 }

/-- A world whose transform matrices are not yet computed (all four
`undefined`), as the rotation helpers tolerate via `?.isMatrix4`. -/
def noMatrices : WorldMatrices :=
  { trans_scene_lidar := none, trans_lidar_scene := none,
    trans_lidar_utm := none, trans_utm_lidar := none }

/-- Componentwise difference of two rational triples. -/
def sub3 (a b : ℚ × ℚ × ℚ) : ℚ × ℚ × ℚ :=
  (a.1 - b.1, a.2.1 - b.2.1, a.2.2 - b.2.2)

/-! # Helper lemmas -/

/-- `go()` never changes the transform or notification counters. -/
theorem goW_counts (s : WorldState) :
    (goW s).calcCount = s.calcCount ∧ (goW s).notifyCount = s.notifyCount := by
  unfold goW unloadW
  split_ifs <;> exact ⟨rfl, rfl⟩

/-- Once an entry is destroyed, unattached and not `everythingDone`, every
event keeps it so: the aggregate check may still fire the transform
computation and callback, but `go()` takes the `destroyed` branch and only
runs `unload()`, which is a no-op. -/
theorem destroyed_inv (s : WorldState) (ev : LoadEvent)
    (hd : s.destroyed = true) (ha : s.attached = false)
    (he : s.everythingDone = false) :
    (stepW s ev).destroyed = true ∧ (stepW s ev).attached = false ∧
    (stepW s ev).everythingDone = false := by
  cases ev <;>
    simp only [stepW, onSubPreloadFinished, imageSettle, activateW, deleteAllW, goW,
      unloadW, preloadedW] <;>
    split_ifs <;> simp_all

set_option maxHeartbeats 1000000

/-- The ported `Matrix4.invert` is a left inverse whenever the determinant
is nonzero. -/
theorem mulMat_invertM (m : Mat4) (hdet : detM m ≠ 0) :
    mulMat (invertM m) m = idMat := by
  obtain ⟨a11, a12, a13, a14, a21, a22, a23, a24, a31, a32, a33, a34, a41, a42, a43, a44⟩ := m
  simp only [detM, det3] at hdet
  simp only [invertM, detM, det3, mulMat, idMat, zeroMat]
  split_ifs with h
  · exact absurd h hdet
  · simp only [Mat4.mk.injEq]
    refine ⟨?_, ?_, ?_, ?_, ?_, ?_, ?_, ?_, ?_, ?_, ?_, ?_, ?_, ?_, ?_, ?_⟩ <;>
      (field_simp; ring)

/-- `Vector4.applyMatrix4` composes along matrix products. -/
theorem applyM4v4_mulMat (a b : Mat4) (x y z w : ℚ) :
    applyM4v4 a (applyM4v4 b x y z w).1 (applyM4v4 b x y z w).2.1
      (applyM4v4 b x y z w).2.2.1 (applyM4v4 b x y z w).2.2.2 =
    applyM4v4 (mulMat a b) x y z w := by
  simp only [applyM4v4, mulMat, Prod.mk.injEq]
  refine ⟨?_, ?_, ?_, ?_⟩ <;> ring

/-- On an affine matrix (bottom row `0 0 0 1`) the `Vector3` apply agrees
with the homogeneous `Vector4` apply at `w = 1`. -/
theorem applyM4v3_affine (m : Mat4) (h41 : m.n41 = 0) (h42 : m.n42 = 0)
    (h43 : m.n43 = 0) (h44 : m.n44 = 1) (x y z : ℚ) :
    applyM4v3 m x y z =
      ((applyM4v4 m x y z 1).1, (applyM4v4 m x y z 1).2.1,
       (applyM4v4 m x y z 1).2.2.1) := by
  simp [applyM4v3, applyM4v4, h41, h42, h43, h44]

/-- Round trip through an affine matrix and its THREE inverse is the
identity when the determinant is nonzero. -/
theorem affine_roundtrip (m : Mat4) (hdet : detM m ≠ 0) (h41 : m.n41 = 0)
    (h42 : m.n42 = 0) (h43 : m.n43 = 0) (h44 : m.n44 = 1) (x y z : ℚ) :
    applyM4v4 (invertM m) (applyM4v3 m x y z).1 (applyM4v3 m x y z).2.1
      (applyM4v3 m x y z).2.2 1 = (x, y, z, 1) := by
  rw [applyM4v3_affine m h41 h42 h43 h44]
  have hw : (applyM4v4 m x y z 1).2.2.2 = 1 := by
    simp [applyM4v4, h41, h42, h43, h44]
  calc applyM4v4 (invertM m) (applyM4v4 m x y z 1).1 (applyM4v4 m x y z 1).2.1
        (applyM4v4 m x y z 1).2.2.1 1
      = applyM4v4 (invertM m) (applyM4v4 m x y z 1).1 (applyM4v4 m x y z 1).2.1
        (applyM4v4 m x y z 1).2.2.1 (applyM4v4 m x y z 1).2.2.2 := by rw [hw]
    _ = applyM4v4 (mulMat (invertM m) m) x y z 1 := applyM4v4_mulMat _ _ _ _ _ _
    _ = applyM4v4 idMat x y z 1 := by rw [mulMat_invertM m hdet]
    _ = (x, y, z, 1) := by simp [applyM4v4, idMat]

/-- The sensor-to-render matrix built by `calcTransformMatrix` is affine in
both coordinate modes. -/
theorem tls_affine (utmMode : Bool) (ox oy oz : ℚ) (pose refP : Pose) :
    (calcTransformMatrix utmMode ox oy oz (some (pose, refP))).trans_lidar_scene.n41 = 0 ∧
    (calcTransformMatrix utmMode ox oy oz (some (pose, refP))).trans_lidar_scene.n42 = 0 ∧
    (calcTransformMatrix utmMode ox oy oz (some (pose, refP))).trans_lidar_scene.n43 = 0 ∧
    (calcTransformMatrix utmMode ox oy oz (some (pose, refP))).trans_lidar_scene.n44 = 1 := by
  cases utmMode <;>
    simp [calcTransformMatrix, mulMat, setPosition, idMat, makeRotationFromQuaternion]

/-- With a unit pose quaternion the sensor-to-render matrix has determinant
one (the determinant of the quaternion rotation block is
`1 + 4(x² + y² + z²)(|q|² − 1)`). -/
theorem tls_det (utmMode : Bool) (ox oy oz : ℚ) (pose refP : Pose)
    (hq : pose.qx ^ 2 + pose.qy ^ 2 + pose.qz ^ 2 + pose.qw ^ 2 = 1) :
    detM (calcTransformMatrix utmMode ox oy oz (some (pose, refP))).trans_lidar_scene = 1 := by
  cases utmMode
  · simp [calcTransformMatrix, setPosition, idMat, detM, det3]
  · simp [calcTransformMatrix, mulMat, setPosition, idMat,
      makeRotationFromQuaternion, detM, det3]
    linear_combination (4 * (pose.qx ^ 2 + pose.qy ^ 2 + pose.qz ^ 2)) * hq

/-- The cached inverse matrices are the THREE inverses of the cached
forward matrices, by construction of `calcTransformMatrix` (with the pose
absent, `trans_utm_lidar` is the identity, itself the inverse of the
identity `trans_lidar_utm`). -/
theorem scene_lidar_inverse (utmMode : Bool) (ox oy oz : ℚ) (p : Option (Pose × Pose)) :
    (calcTransformMatrix utmMode ox oy oz p).trans_scene_lidar =
      invertM (calcTransformMatrix utmMode ox oy oz p).trans_lidar_scene ∧
    (calcTransformMatrix utmMode ox oy oz p).trans_utm_lidar =
      (match p with
       | some _ => invertM (calcTransformMatrix utmMode ox oy oz p).trans_lidar_utm
       | none => idMat) := by
  rcases p with _ | ⟨pose, refP⟩ <;> cases utmMode <;> exact ⟨rfl, rfl⟩

/-- The translation column of the sensor-to-world transform is the pose
translation minus the reference translation. -/
theorem trans_lidar_utm_translation (utmMode : Bool) (ox oy oz : ℚ) (pose refP : Pose) :
    translationOf (calcTransformMatrix utmMode ox oy oz (some (pose, refP))).trans_lidar_utm =
      (pose.tx - refP.tx, pose.ty - refP.ty, pose.tz - refP.tz) := by
  cases utmMode <;>
    simp [calcTransformMatrix, mulMat, setPosition, idMat,
      makeRotationFromQuaternion, translationOf]

/-- `Euler.setFromRotationMatrix` carries the requested order through every
branch. -/
theorem euler_order_of_matrix (jm : JsMath) (m : Mat4) (o : EulOrder) :
    (eulerSetFromRotationMatrix jm m o).order = o := by
  cases o <;> simp only [eulerSetFromRotationMatrix] <;> split_ifs <;> rfl

/-! # Claims -/

/-- C1: counterexample.  The claim says `calcTransformMatrix` and the
`on_preload_finished` callback fire exactly once per preload cycle, and
that re-invoking `on_subitem_preload_finished` after all sub-loads are
settled does not re-trigger them.  On a one-camera world whose point-cloud,
annotation and pose loaders settle first and whose image settles last —
each of the four sub-loads settling exactly once — both fire twice: the
image's completion callback re-runs the check, `preloaded()` (which
ignores the cameras) is still true, and there is no fired-once guard in
world.js 227-234. -/
theorem C1_counterexample :
    (runW (mkWorld [false]) imageLastTrace).calcCount = 2 ∧
    (runW (mkWorld [false]) imageLastTrace).notifyCount = 2 := by
  decide

/-- C1 (amended): the transform computation and the `onPreloaded`
notification fire on every invocation of the aggregate-completion check
made while `preloaded()` is true.  They therefore fire exactly once — at
the moment the predicate first becomes true — only in runs where no
further check invocation follows, e.g. when the three consulted sub-loaders
settle in any of their six orders on a camera-less world; every additional
invocation of `on_subitem_preload_finished` on a settled world fires them
again. -/
theorem C1_fires_on_every_true_check :
    (∀ evs ∈ [[LoadEvent.lidarDone, LoadEvent.annoDone, LoadEvent.egoDone],
        [LoadEvent.lidarDone, LoadEvent.egoDone, LoadEvent.annoDone],
        [LoadEvent.annoDone, LoadEvent.lidarDone, LoadEvent.egoDone],
        [LoadEvent.annoDone, LoadEvent.egoDone, LoadEvent.lidarDone],
        [LoadEvent.egoDone, LoadEvent.lidarDone, LoadEvent.annoDone],
        [LoadEvent.egoDone, LoadEvent.annoDone, LoadEvent.lidarDone]],
      (runW (mkWorld []) evs).calcCount = 1 ∧ (runW (mkWorld []) evs).notifyCount = 1)
    ∧ (∀ s : WorldState, preloadedW s = true →
        (onSubPreloadFinished s).calcCount = s.calcCount + 1 ∧
        (onSubPreloadFinished s).notifyCount = s.notifyCount + 1) := by
  constructor
  · decide
  · intro s hs
    unfold onSubPreloadFinished
    rw [hs]
    simp only [if_true]
    split_ifs with h
    · exact ⟨(goW_counts _).1, (goW_counts _).2⟩
    · exact ⟨rfl, rfl⟩

/-- C1 witness: one concrete completion order fires exactly once, and one
extra check on a settled world increments the counter again. -/
theorem C1_fires_on_every_true_check_witness :
    (runW (mkWorld []) [LoadEvent.egoDone, LoadEvent.annoDone, LoadEvent.lidarDone]).calcCount = 1 ∧
    (onSubPreloadFinished readyWorld).calcCount = readyWorld.calcCount + 1 :=
  ⟨(C1_fires_on_every_true_check.1 _ (by decide)).1,
   (C1_fires_on_every_true_check.2 readyWorld (by decide)).1⟩

/-- C2: counterexample.  The claim says `preloaded()` is true iff all four
sub-loaders — point-cloud, annotation, image-set, pose — have signaled.
On a world whose point-cloud, annotation and pose flags are set but whose
single camera image has not settled, `preloaded()` already returns true:
world.js 213-217 reads only three flags and never consults
`this.cameras`. -/
theorem C2_counterexample :
    preloadedW threeSettled = true ∧ imagesLoaded threeSettled = false := by
  decide

/-- C2 (amended): `preloaded()` is true iff the point-cloud, annotation and
pose sub-loaders have each signaled completion; the image-set loader is not
consulted, so the predicate is invariant under arbitrary changes to the
image flags. -/
theorem C2_preloaded_consults_three (s : WorldState) (cams : List Bool) :
    (preloadedW s = true ↔
      s.lidarPreloadedF = true ∧ s.annoPreloadedF = true ∧ s.egoPreloadedF = true)
    ∧ preloadedW { s with camLoaded := cams } = preloadedW s := by
  constructor
  · simp [preloadedW, Bool.and_eq_true, and_assoc]
  · rfl

/-- C3: the claim (and the spec's offset-disjointness invariant) fails on
the code.  Three consecutive `allocateOffset()` calls on a fresh `Data`
with no intervening releases return `(0,0,0)`, `(0,-1,0)` and `(0,-1,0)`:
the second and third simultaneously-live entries hold equal cells.  The
first ring expansion from seed `(1,0)` generates `[x,y]`, `[x,-y]` and the
other sign/swap variants with `y = 0`, so the eight pushed cells contain
each tuple twice, and the `!offsetList.includes(offset)` dedup guard never
fires because `Array.includes` compares references, not tuple values. -/
theorem C3_duplicate_live_offsets :
    alloc1.2 = some (0, 0, 0) ∧ alloc2.2 = some (0, -1, 0) ∧
    alloc3.2 = some (0, -1, 0) ∧ alloc3.1.offsetsAliveCount = 3 := by
  decide

/-- C4: if `deleteAll()` runs while an entry's sub-loads are still
outstanding (`everythingDone` false, nothing attached), then whatever
events follow — remaining sub-loader completions, image settlements,
activation, repeated checks or repeated deletes — the entry never attaches
its geometry to the render space: every `go()` sees the destroyed flag
before `scene.add` and runs `unload()` (a no-op here) instead. -/
theorem C4_destroyed_never_attaches (s : WorldState) (evs : List LoadEvent)
    (he : s.everythingDone = false) (ha : s.attached = false) :
    (runW (deleteAllW s) evs).attached = false ∧
    (runW (deleteAllW s) evs).destroyed = true := by
  have h0 : (deleteAllW s).destroyed = true ∧ (deleteAllW s).attached = false ∧
      (deleteAllW s).everythingDone = false := by
    unfold deleteAllW unloadW
    simp only [he, Bool.false_eq_true, if_false]
    split_ifs <;> simp_all
  suffices h : ∀ t : WorldState, t.destroyed = true → t.attached = false →
      t.everythingDone = false →
      (runW t evs).attached = false ∧ (runW t evs).destroyed = true by
    exact h _ h0.1 h0.2.1 h0.2.2
  induction evs with
  | nil => intro t hd ha2 he2; exact ⟨ha2, hd⟩
  | cons ev rest ih =>
    intro t hd ha2 he2
    obtain ⟨h1, h2, h3⟩ := destroyed_inv t ev hd ha2 he2
    exact ih _ h1 h2 h3

/-- C4 witness: a fresh one-camera world deleted before any sub-load
settles stays unattached through full settlement and activation. -/
theorem C4_destroyed_never_attaches_witness :
    (runW (deleteAllW (mkWorld [false]))
      [LoadEvent.activateEv, LoadEvent.lidarDone, LoadEvent.annoDone,
       LoadEvent.egoDone, LoadEvent.imageDone 0, LoadEvent.recheck]).attached = false ∧
    (runW (deleteAllW (mkWorld [false]))
      [LoadEvent.activateEv, LoadEvent.lidarDone, LoadEvent.annoDone,
       LoadEvent.egoDone, LoadEvent.imageDone 0, LoadEvent.recheck]).destroyed = true :=
  C4_destroyed_never_attaches (mkWorld [false]) _ (by decide) (by decide)

/-- C5: `deleteDistantWorlds` never removes an entry whose `everythingDone`
is false or whose annotation holds unsaved edits, regardless of frame
distance: such an entry survives in the resulting world list untouched and
is not among the entries selected for `returnOffset`/`deleteAll`. -/
theorem C5_eviction_safety (maxN currentIndex : Int) (ws : List WorldState)
    (w : WorldState) (hw : w ∈ ws)
    (hnotSafe : w.everythingDone = false ∨ w.annoModified = true) :
    w ∈ (deleteDistantWorlds maxN currentIndex ws).1 ∧
    w ∉ ws.filter (removableW maxN currentIndex) := by
  have hrem : removableW maxN currentIndex w = false := by
    rcases hnotSafe with h | h <;> simp [removableW, h]
  constructor
  · unfold deleteDistantWorlds
    refine List.mem_filter.2 ⟨List.mem_map.2 ⟨w, hw, ?_⟩, ?_⟩
    · rw [hrem]; simp
    · simp [hrem]
  · intro hmem
    rw [List.mem_filter] at hmem
    rw [hrem] at hmem
    exact absurd hmem.2 (by simp)

/-- C5 witness: a half-loaded world 100 frames away survives eviction. -/
theorem C5_eviction_safety_witness :
    { mkWorld [] with frameIndex := 100 } ∈
      (deleteDistantWorlds 80 0 [{ mkWorld [] with frameIndex := 100 }]).1 ∧
    { mkWorld [] with frameIndex := 100 } ∉
      [{ mkWorld [] with frameIndex := 100 }].filter (removableW 80 0) :=
  C5_eviction_safety 80 0 _ _ (by simp) (Or.inl (by decide))

/-- C6: the claim is right and the code is wrong.  On an everything-done,
unmodified world 100 frames from the current one (window 80), eviction
calls `deleteAll()` and returns its offset cell — but the world is NOT
removed from `worldList`: the final `filter(w => !removable(w))` in
data.js 134 re-evaluates `removable` after `deleteAll`/`unload` reset
`everythingDone` to false, so the destroyed world fails the predicate and
is kept in the collection. -/
theorem C6_destroyed_world_stays_listed :
    (deleteDistantWorlds 80 0 [farWorld]).2 = [(1, 0, 0)] ∧
    (deleteDistantWorlds 80 0 [farWorld]).1 =
      [{ farWorld with destroyed := true, everythingDone := false,
                       attached := false, active := false }] := by
  decide

/-- C7: counterexample.  The claim says the new entry attaches strictly
before the previously active entry's `unload()`.  Activating a preloaded
entry with a previous entry attached and no opt-out produces the render
action log `[oldUnload, attachNew, lidarGo, annoGo]`: `go()` invokes
`destroy_old_world?.()` (which unloads the old entry, data.js 260) before
`scene.add(webglGroup)` (world.js 290-296), so the attach is NOT before
the unload. -/
theorem C7_counterexample :
    (activateWorldLog readyWorld true).2 =
      [RenderAct.oldUnload, RenderAct.attachNew, RenderAct.lidarGo, RenderAct.annoGo] ∧
    ¬ ((activateWorldLog readyWorld true).2.indexOf RenderAct.attachNew <
       (activateWorldLog readyWorld true).2.indexOf RenderAct.oldUnload) := by
  decide

/-- C7 (amended): when the manager switches the active entry without the
opt-out, the previously active entry's `unload()` runs strictly BEFORE the
new entry's render attachment, immediately before it in the same
synchronous `go()` invocation; and that unload is deferred — activating a
not-yet-preloaded entry performs no render action at all until the entry's
own preload completes. -/
theorem C7_old_unloads_before_new_attaches (s : WorldState) (hasOld : Bool) :
    (preloadedW s = true → s.everythingDone = false → s.destroyed = false →
      (activateWorldLog s true).2 =
        [RenderAct.oldUnload, RenderAct.attachNew, RenderAct.lidarGo, RenderAct.annoGo])
    ∧ (preloadedW s = false → (activateWorldLog s hasOld).2 = []) := by
  constructor
  · intro hp he hd
    have h3 := hp
    simp only [preloadedW, Bool.and_eq_true] at h3
    obtain ⟨⟨h1, h2⟩, h4⟩ := h3
    simp [activateWorldLog, goLog, preloadedW, h1, h2, h4, he, hd]
  · intro hp
    have h3 : preloadedW { s with active := true } = false := hp
    simp [activateWorldLog, h3]

/-- C7 witness: the ready world logs unload-then-attach; a fresh world logs
nothing. -/
theorem C7_old_unloads_before_new_attaches_witness :
    (activateWorldLog readyWorld true).2 =
      [RenderAct.oldUnload, RenderAct.attachNew, RenderAct.lidarGo, RenderAct.annoGo] ∧
    (activateWorldLog (mkWorld []) true).2 = [] :=
  ⟨(C7_old_unloads_before_new_attaches readyWorld true).1 (by decide) (by decide) (by decide),
   (C7_old_unloads_before_new_attaches (mkWorld []) true).2 (by decide)⟩

/-- C8: with the per-scene reference pose set (from the first preloaded
frame F0, here stored as `p0`), every frame's sensor-to-world
(`trans_lidar_utm`) translation equals that frame's raw pose translation
minus the reference's raw pose translation — so the reference frame sits at
the world origin — and the difference between any two frames'
sensor-to-world translations is invariant to which pose serves as the
reference. -/
theorem C8_translation_relative_to_reference (utmMode : Bool) (ox oy oz : ℚ)
    (p0 pose : Pose) :
    translationOf (calcTransformMatrix utmMode ox oy oz
        (some (pose, (getRefEgoPose (some p0) pose).1))).trans_lidar_utm =
      (pose.tx - p0.tx, pose.ty - p0.ty, pose.tz - p0.tz) ∧
    (∀ (pa pb r rAlt : Pose) (u2 : Bool) (o2x o2y o2z : ℚ),
      sub3 (translationOf (calcTransformMatrix u2 o2x o2y o2z (some (pa, r))).trans_lidar_utm)
           (translationOf (calcTransformMatrix u2 o2x o2y o2z (some (pb, r))).trans_lidar_utm) =
      sub3 (translationOf (calcTransformMatrix u2 o2x o2y o2z (some (pa, rAlt))).trans_lidar_utm)
           (translationOf (calcTransformMatrix u2 o2x o2y o2z (some (pb, rAlt))).trans_lidar_utm)) := by
  constructor
  · exact trans_lidar_utm_translation utmMode ox oy oz pose p0
  · intro pa pb r rAlt u2 o2x o2y o2z
    simp only [trans_lidar_utm_translation, sub3, Prod.mk.injEq]
    refine ⟨by ring, by ring, by ring⟩

/-- C9: for a world whose transforms were computed from a unit pose
quaternion, converting an arbitrary point from sensor to render frame
(`lidarPosToScene`) and back (`scenePosToLidar`) returns the point exactly
(hence within any floating-point tolerance), in both coordinate modes —
and this holds because the cached `trans_scene_lidar` and `trans_utm_lidar`
are the exact matrix inverses of `trans_lidar_scene` and `trans_lidar_utm`,
not independently re-derived. -/
theorem C9_roundtrip (utmMode : Bool) (ox oy oz : ℚ) (pose refP : Pose)
    (hq : pose.qx ^ 2 + pose.qy ^ 2 + pose.qz ^ 2 + pose.qw ^ 2 = 1) (x y z : ℚ) :
    scenePosToLidar (calcTransformMatrix utmMode ox oy oz (some (pose, refP)))
        (lidarPosToScene (calcTransformMatrix utmMode ox oy oz (some (pose, refP))) x y z).1
        (lidarPosToScene (calcTransformMatrix utmMode ox oy oz (some (pose, refP))) x y z).2.1
        (lidarPosToScene (calcTransformMatrix utmMode ox oy oz (some (pose, refP))) x y z).2.2 =
      (x, y, z, 1) ∧
    (calcTransformMatrix utmMode ox oy oz (some (pose, refP))).trans_scene_lidar =
      invertM (calcTransformMatrix utmMode ox oy oz (some (pose, refP))).trans_lidar_scene ∧
    (calcTransformMatrix utmMode ox oy oz (some (pose, refP))).trans_utm_lidar =
      invertM (calcTransformMatrix utmMode ox oy oz (some (pose, refP))).trans_lidar_utm := by
  obtain ⟨h41, h42, h43, h44⟩ := tls_affine utmMode ox oy oz pose refP
  have hdet : detM (calcTransformMatrix utmMode ox oy oz
      (some (pose, refP))).trans_lidar_scene ≠ 0 := by
    rw [tls_det utmMode ox oy oz pose refP hq]; norm_num
  have hinv := (scene_lidar_inverse utmMode ox oy oz (some (pose, refP))).1
  refine ⟨?_, hinv, ?_⟩
  · unfold scenePosToLidar lidarPosToScene
    rw [hinv]
    exact affine_roundtrip _ hdet h41 h42 h43 h44 x y z
  · exact (scene_lidar_inverse utmMode ox oy oz (some (pose, refP))).2

/-- C9 witness: identity quaternion pose, continuous-world mode, concrete
offsets and point. -/
theorem C9_roundtrip_witness :
    ((0 : ℚ) ^ 2 + 0 ^ 2 + 0 ^ 2 + 1 ^ 2 = 1) ∧
    scenePosToLidar (calcTransformMatrix true 5 6 7 (some (⟨10, 20, 30, 0, 0, 0, 1⟩, ⟨1, 2, 3, 0, 0, 0, 1⟩)))
        (lidarPosToScene (calcTransformMatrix true 5 6 7 (some (⟨10, 20, 30, 0, 0, 0, 1⟩, ⟨1, 2, 3, 0, 0, 0, 1⟩))) 1 2 3).1
        (lidarPosToScene (calcTransformMatrix true 5 6 7 (some (⟨10, 20, 30, 0, 0, 0, 1⟩, ⟨1, 2, 3, 0, 0, 0, 1⟩))) 1 2 3).2.1
        (lidarPosToScene (calcTransformMatrix true 5 6 7 (some (⟨10, 20, 30, 0, 0, 0, 1⟩, ⟨1, 2, 3, 0, 0, 0, 1⟩))) 1 2 3).2.2 =
      (1, 2, 3, 1) :=
  ⟨by norm_num,
   (C9_roundtrip true 5 6 7 ⟨10, 20, 30, 0, 0, 0, 1⟩ ⟨1, 2, 3, 0, 0, 0, 1⟩ (by norm_num) 1 2 3).1⟩

/-- C10: counterexample.  The claim says the rotation helpers accept
Euler-angle, quaternion, or array input and raise on any other shape.  But
`toQuat` also accepts `null`/`undefined` (returning the identity
quaternion, world.js 352) and plain `{x, y, z}` objects (world.js
360-362): `sceneRotToLidar` on a null input returns a value instead of
raising. -/
theorem C10_counterexample :
    sceneRotToLidar jmZero noMatrices RotInput.nullIn =
      .ok ⟨0, 0, 0, EulOrder.XYZ⟩ ∧
    toQuat jmZero (.objIn (some 1) (some 2) (some 3) none) = .ok ⟨1, 2, 3, 1⟩ := by
  constructor
  · simp only [sceneRotToLidar, sceneRotToLidarQuat, toQuat, qParentOf, noMatrices,
      jmZero, mulQ, normalizeQ, eulerSetFromQuaternion, eulerSetFromRotationMatrix,
      makeRotationFromQuaternion, clampQ, orderOfInput, Except.map]
    norm_num
  · rfl

/-- C10 (amended): the rotation conversion helpers accept Euler-angle,
quaternion (a THREE quaternion or a plain object with `x`, `y`, `z`
present and `w` defaulting to 1), length-4 `[w,x,y,z]` array, or
null/undefined input (yielding the identity quaternion), and raise an
error on every other shape (arrays of any other length, objects missing a
component, anything else); for accepted input every one of the four
directional helpers composes the input quaternion with the quaternion of
its cached transform in the same local-times-parent order, renormalizes,
and — when the input was an Euler angle — converts back preserving the
input's Euler rotation order. -/
theorem C10_rotation_dispatch :
    (∀ jm : JsMath, toQuat jm .nullIn = .ok ⟨0, 0, 0, 1⟩)
    ∧ (∀ (jm : JsMath) (q : Quat), toQuat jm (.quatIn q) = .ok q)
    ∧ (∀ (jm : JsMath) (x y z : ℚ) (o : EulOrder),
        toQuat jm (.eulerIn x y z o) = .ok (setFromEulerQ jm x y z o))
    ∧ (∀ (jm : JsMath) (w x y z : ℚ), toQuat jm (.arrIn [w, x, y, z]) = .ok ⟨x, y, z, w⟩)
    ∧ (∀ (jm : JsMath) (l : List ℚ), l.length ≠ 4 →
        toQuat jm (.arrIn l) = .error "Unsupported rotation format")
    ∧ (∀ (jm : JsMath) (x y z : ℚ) (w : Option ℚ),
        toQuat jm (.objIn (some x) (some y) (some z) w) = .ok ⟨x, y, z, w.getD 1⟩)
    ∧ (∀ (jm : JsMath) (x y z : ℚ) (w : Option ℚ),
        toQuat jm (.objIn none (some y) (some z) w) = .error "Unsupported rotation format" ∧
        toQuat jm (.objIn (some x) none (some z) w) = .error "Unsupported rotation format" ∧
        toQuat jm (.objIn (some x) (some y) none w) = .error "Unsupported rotation format")
    ∧ (∀ jm : JsMath, toQuat jm .otherIn = .error "Unsupported rotation format")
    ∧ (∀ (jm : JsMath) (wm : WorldMatrices) (rot : RotInput) (q : Quat),
        toQuat jm rot = .ok q →
          sceneRotToLidarQuat jm wm rot =
            .ok (normalizeQ jm (mulQ q (qParentOf jm wm.trans_scene_lidar))) ∧
          lidarRotToSceneQuat jm wm rot =
            .ok (normalizeQ jm (mulQ q (qParentOf jm wm.trans_lidar_scene))) ∧
          lidarRotToUtmQuat jm wm rot =
            .ok (normalizeQ jm (mulQ q (qParentOf jm wm.trans_lidar_utm))) ∧
          utmRotToLidarQuat jm wm rot =
            .ok (normalizeQ jm (mulQ q (qParentOf jm wm.trans_utm_lidar))))
    ∧ (∀ (jm : JsMath) (wm : WorldMatrices) (x y z : ℚ) (o : EulOrder),
        (sceneRotToLidar jm wm (.eulerIn x y z o)).map EulerA.order = .ok o ∧
        (lidarRotToScene jm wm (.eulerIn x y z o)).map EulerA.order = .ok o ∧
        (lidarRotToUtm jm wm (.eulerIn x y z o)).map EulerA.order = .ok o ∧
        (utmRotToLidar jm wm (.eulerIn x y z o)).map EulerA.order = .ok o) := by
  refine ⟨fun _ => rfl, fun _ _ => rfl, fun _ _ _ _ _ => rfl, fun _ _ _ _ _ => rfl,
    ?_, fun _ _ _ _ _ => rfl, fun _ _ _ _ _ => ⟨rfl, rfl, rfl⟩, fun _ => rfl, ?_, ?_⟩
  · intro jm l hl
    rcases l with _ | ⟨a, _ | ⟨b, _ | ⟨c, _ | ⟨d, _ | ⟨e, t⟩⟩⟩⟩⟩ <;>
      simp_all [toQuat, List.length]
  · intro jm wm rot q hq
    refine ⟨?_, ?_, ?_, ?_⟩ <;>
      simp [sceneRotToLidarQuat, lidarRotToSceneQuat, lidarRotToUtmQuat,
        utmRotToLidarQuat, hq, Except.map]
  · intro jm wm x y z o
    refine ⟨?_, ?_, ?_, ?_⟩ <;>
      simp [sceneRotToLidar, lidarRotToScene, lidarRotToUtm, utmRotToLidar,
        sceneRotToLidarQuat, lidarRotToSceneQuat, lidarRotToUtmQuat, utmRotToLidarQuat,
        toQuat, orderOfInput, Except.map, eulerSetFromQuaternion, euler_order_of_matrix]

/-- C10 witness: a length-3 array raises; a quaternion input flows through
the local-times-parent composition; an Euler input keeps its order. -/
theorem C10_rotation_dispatch_witness :
    toQuat jmZero (.arrIn [1, 2, 3]) = .error "Unsupported rotation format" ∧
    sceneRotToLidarQuat jmZero noMatrices (.quatIn ⟨1, 0, 0, 0⟩) =
      .ok (normalizeQ jmZero (mulQ ⟨1, 0, 0, 0⟩ (qParentOf jmZero noMatrices.trans_scene_lidar))) ∧
    (sceneRotToLidar jmZero noMatrices (.eulerIn 1 2 3 EulOrder.ZYX)).map EulerA.order =
      .ok EulOrder.ZYX :=
  ⟨C10_rotation_dispatch.2.2.2.2.1 jmZero [1, 2, 3] (by norm_num),
   (C10_rotation_dispatch.2.2.2.2.2.2.2.2.1 jmZero noMatrices (.quatIn ⟨1, 0, 0, 0⟩) _ rfl).1,
   (C10_rotation_dispatch.2.2.2.2.2.2.2.2.2 jmZero noMatrices 1 2 3 EulOrder.ZYX).1⟩

end NextPoints
